import Mathlib

/-!
Shallow embedding of the AGV TaskOn Verification API (src/main.py).

Python strings that the logic inspects are modelled as `List Char` (`Str`);
Python `str.strip` / `str.lower` / `str.upper` are modelled on the ASCII
range, which is the range the verification logic operates on.  Opaque
strings (sheet identifiers, error messages) stay as Lean `String`.
Remote effects (the Google Sheets API, the HTTP fetch) are modelled as
oracle arguments: an `Except` value describing what the remote call would
have produced, so that a raised exception is an explicit `.error` value.
-/

/-- Python text, as a list of characters. -/
abbrev Str := List Char

/-- Model of Python `str.strip`: drop leading and trailing whitespace. -/
def pyStrip (s : Str) : Str :=
  ((s.dropWhile Char.isWhitespace).reverse.dropWhile Char.isWhitespace).reverse

/-- Model of Python `str.lower` (ASCII range). -/
def pyLower (s : Str) : Str := s.map Char.toLower

/-- Model of Python `str.upper` (ASCII range). -/
def pyUpper (s : Str) : Str := s.map Char.toUpper

/-- Value of one character in the base-26 bijective scheme of
`column_letter_to_index`: `ord(char) - ord('A') + 1` (main.py line 66). -/
def charValue (c : Char) : Nat := c.toNat - 'A'.toNat + 1

/-- The left-to-right fold `index = index * 26 + charValue c`
(main.py lines 64-66). -/
def lettersVal (l : Str) : Nat := l.foldl (fun a c => a * 26 + charValue c) 0

/-- Model of `column_letter_to_index` (main.py lines 58-70).  The function
uppercases and strips its argument, rejects an empty or non-alphabetic
result by raising `ValueError` (modelled as `none`), and otherwise returns
the zero-based index `lettersVal - 1`. -/
def column_letter_to_index (letter : Str) : Option Nat :=
  let l := pyStrip (pyUpper letter)
  if l = [] ∨ ¬ (l.all Char.isAlpha = true) then none
  else some (lettersVal l - 1)

/-- The pattern text `/status/` of the regex in
`extract_tweet_id_from_url` (main.py line 73). -/
def statusPat : Str := ['/', 's', 't', 'a', 't', 'u', 's', '/']

/-- Model of `extract_tweet_id_from_url` (main.py lines 72-74): Python
`re.search(r"/status/(\d+)", url)` finds the leftmost position where
`/status/` is followed by at least one digit and captures the maximal
digit run after it. -/
def extract_tweet_id_from_url : Str → Option Str
  | [] => none
  | c :: rest =>
    if statusPat.isPrefixOf (c :: rest) && (((c :: rest).drop 8).headD ' ').isDigit then
      some (((c :: rest).drop 8).takeWhile Char.isDigit)
    else
      extract_tweet_id_from_url rest

/-- Model of the Python substring test `pat in hay`. -/
def containsSub (hay pat : Str) : Bool :=
  match hay with
  | [] => pat.isEmpty
  | _ :: t => pat.isPrefixOf hay || containsSub t pat

/-- A JSON-like value, used for the `result` dictionaries the handlers
build. -/
inductive JVal where
  | jbool : Bool → JVal
  | jnum : Nat → JVal
  | jstr : String → JVal
  | jobj : List (String × JVal) → JVal

/-- Model of the `VerificationResponse` pydantic model (main.py lines
36-38): a `result` dictionary plus an optional `error` string. -/
structure VerificationResponse where
  result : List (String × JVal)
  error : Option String

/-- Errors that the Google Sheets API calls can raise inside the lookup
helpers: `HttpError` (caught separately by the handlers) or any other
exception. -/
inductive SheetErr where
  | http : String → SheetErr
  | exc : String → SheetErr

/-- The outcome that the sheet metadata+values API calls would produce:
either the `values` table, or a raised exception. -/
abbrev SheetFetch := Except SheetErr (List (List Str))

/-- Outcome of the `httpx` GET in the content handlers: a response with a
status code and body text, or a raised exception (timeout, transport
error, ...). -/
inductive FetchOutcome where
  | success : Nat → Str → FetchOutcome
  | exc : String → FetchOutcome

/-- A JSON value appearing as a field of the body object: either a string,
or any non-string JSON value, of which the handlers only observe the
Python truthiness (the behaviour of `or ""` and `.strip()` depends on
nothing else). -/
inductive PyVal where
  | str : String → PyVal
  | nonstr : Bool → PyVal

/-- The parsed JSON request body: a JSON object with fields, or any
non-object JSON value.  Python `dict.get` exists only on objects; on any
other value the attribute access raises `AttributeError`. -/
inductive BodyJson where
  | obj : List (String × PyVal) → BodyJson
  | nonobj : BodyJson

/-- Model of `body.get(key)`: on a JSON object it yields the field value
(or `None`); on any other JSON value the attribute access raises
`AttributeError`. -/
def bodyGet : BodyJson → String → Except String (Option PyVal)
  | .obj fields, k => .ok (fields.lookup k)
  | .nonobj, _ => .error "AttributeError: body has no attribute get"

/-- Model of `(v or "").strip()` applied to the result of `body.get`:
a missing field or a falsy value (None, "", 0, [], false, ...) is
replaced by the empty string and stripped; a truthy string is stripped;
a truthy non-string value reaches `.strip()` and raises
`AttributeError`. -/
def orEmptyStrip : Option PyVal → Except String Str
  | none => .ok []
  | some (.str s) => .ok (pyStrip s.data)
  | some (.nonstr true) => .error "AttributeError: value has no attribute strip"
  | some (.nonstr false) => .ok []

/-- The row scan of `is_email_in_sheet` (main.py lines 112-117): the loop
over `values[1:]` returning `True` on the first row that is long enough
and whose cell at `column_index`, stripped and lowercased, equals the
normalized target. -/
def rowsScan (rows : List (List Str)) (column_index : Nat) (target : Str) : Bool :=
  rows.any (fun row =>
    decide (column_index < row.length) &&
    decide (pyLower (pyStrip (row.getD column_index [])) = target))

/-- Model of `is_email_in_sheet` (main.py lines 76-123).  The
`sheets_service` flag models whether the module-level client was
initialized; the `sheet` oracle models the two Google Sheets API calls.
A raised `HttpError` or other exception propagates (`.error`). -/
def is_email_in_sheet (sheets_service : Bool) (email : Str) (sheet_id : String)
    (column_letter : Str) (sheet : SheetFetch) : Except SheetErr Bool :=
  if sheets_service = false then .ok false
  else if sheet_id = "" then .ok false
  else
    let email_lower := pyLower (pyStrip email)
    match sheet with
    | .error e => .error e
    | .ok values =>
      if values = [] then .ok false
      else
        match column_letter_to_index column_letter with
        | none => .ok false
        | some column_index =>
          if (values.headD []).length ≤ column_index then .ok false
          else .ok (rowsScan (values.drop 1) column_index email_lower)

/-- Model of `is_wallet_in_sheet` (main.py lines 125-172), translated
separately from its own source lines; it differs from
`is_email_in_sheet` only in variable naming and log text. -/
def is_wallet_in_sheet (sheets_service : Bool) (address : Str) (sheet_id : String)
    (column_letter : Str) (sheet : SheetFetch) : Except SheetErr Bool :=
  if sheets_service = false then .ok false
  else if sheet_id = "" then .ok false
  else
    let address_lower := pyLower (pyStrip address)
    match sheet with
    | .error e => .error e
    | .ok values =>
      if values = [] then .ok false
      else
        match column_letter_to_index column_letter with
        | none => .ok false
        | some column_index =>
          if (values.headD []).length ≤ column_index then .ok false
          else .ok (rowsScan (values.drop 1) column_index address_lower)

/-- Model of the `/verify-agent-application` handler (main.py lines
174-205).  `body = none` models a JSON parse failure; configuration and
column values are passed as parameters; the handler result is `.error`
exactly when an exception escapes the handler. -/
def verify_agent_application (sheets_service : Bool) (agent_sheet_id : String)
    (agent_email_column : Str) (body : Option BodyJson) (sheet : SheetFetch) :
    Except String VerificationResponse :=
  match body with
  | none => .ok ⟨[("isValid", .jbool false)], some "Invalid JSON body"⟩
  | some b =>
    match bodyGet b "email" with
    | .error e => .error e
    | .ok emailVal =>
      match orEmptyStrip emailVal with
      | .error e => .error e
      | .ok email =>
      if email = [] then
        .ok ⟨[("isValid", .jbool false)], some "Missing email"⟩
      else if sheets_service = false then
        .ok ⟨[("isValid", .jbool false)], some "Google Sheets integration not configured"⟩
      else if agent_sheet_id = "" then
        .ok ⟨[("isValid", .jbool false)], some "Agent sheet ID not configured"⟩
      else
        match is_email_in_sheet sheets_service email agent_sheet_id agent_email_column sheet with
        | .ok found =>
          .ok ⟨[("isValid", .jbool found),
                ("details", .jobj [("email", .jstr ⟨email⟩), ("found", .jbool found)])], none⟩
        | .error (.http m) =>
          .ok ⟨[("isValid", .jbool false)], some ("Google Sheets API error: " ++ m)⟩
        | .error (.exc m) =>
          .ok ⟨[("isValid", .jbool false)], some ("Error verifying email: " ++ m)⟩

/-- Model of the `/verify-content` handler (main.py lines 207-243). -/
def verify_content (body : Option BodyJson) (fetch : FetchOutcome) :
    Except String VerificationResponse :=
  match body with
  | none => .ok ⟨[("isValid", .jbool false)], some "Invalid JSON body"⟩
  | some b =>
    match bodyGet b "link" with
    | .error e => .error e
    | .ok linkVal =>
      match orEmptyStrip linkVal with
      | .error e => .error e
      | .ok link =>
      if link = [] then
        .ok ⟨[("isValid", .jbool false)], some "Missing link in request body"⟩
      else
        match fetch with
        | .exc m => .ok ⟨[("isValid", .jbool false)], some ("Fetch error: " ++ m)⟩
        | .success status text =>
          if 400 ≤ status then
            .ok ⟨[("isValid", .jbool false),
                  ("details", .jobj [("reason", .jstr "unreachable"),
                                     ("status_code", .jnum status)])], none⟩
          else
            let t := pyLower text
            let hasAGV := containsSub t ['a', 'g', 'v']
            let hasTREE := containsSub t ['t', 'r', 'e', 'e']
            let hasRWA := containsSub t ['r', 'w', 'a']
            let hasTag := containsSub t ['@', 'a', 'g', 'v', 'p', 'r', 'o', 't', 'o', 'c', 'o', 'l']
            let is_valid := hasAGV && hasTREE && hasRWA && hasTag
            .ok ⟨[("isValid", .jbool is_valid),
                  ("details", .jobj [("hasAGV", .jbool hasAGV), ("hasTREE", .jbool hasTREE),
                                     ("hasRWA", .jbool hasRWA), ("hasTag", .jbool hasTag)])], none⟩

/-- Model of the `/verify-share-nft` handler (main.py lines 245-285). -/
def verify_share_nft (body : Option BodyJson) (fetch : FetchOutcome) :
    Except String VerificationResponse :=
  match body with
  | none => .ok ⟨[("isValid", .jbool false)], some "Invalid JSON body"⟩
  | some b =>
    match bodyGet b "tweetUrl" with
    | .error e => .error e
    | .ok urlVal =>
      match orEmptyStrip urlVal with
      | .error e => .error e
      | .ok tweet_url =>
      if tweet_url = [] then
        .ok ⟨[("isValid", .jbool false)], some "Missing tweetUrl in request body"⟩
      else
        match extract_tweet_id_from_url tweet_url with
        | none => .ok ⟨[("isValid", .jbool false)], some "Invalid X post URL"⟩
        | some _ =>
          match fetch with
          | .exc m => .ok ⟨[("isValid", .jbool false)], some ("Verification error: " ++ m)⟩
          | .success status text =>
            if 400 ≤ status then
              .ok ⟨[("isValid", .jbool false),
                    ("details", .jobj [("reason", .jstr "unreachable"),
                                       ("status_code", .jnum status)])], none⟩
            else
              let t := pyLower text
              let has_hashtags := containsSub t ['#', 'a', 'g', 'v'] &&
                containsSub t ['#', 't', 'r', 'e', 'e'] && containsSub t ['#', 'r', 'w', 'a']
              let has_mention := containsSub t ['@', 'a', 'g', 'v', 'p', 'r', 'o', 't', 'o', 'c', 'o', 'l']
              let has_media := has_hashtags && has_mention
              let is_valid := has_hashtags && has_mention && has_media
              .ok ⟨[("isValid", .jbool is_valid),
                    ("details", .jobj [("has_hashtags", .jbool has_hashtags),
                                       ("has_mention", .jbool has_mention),
                                       ("has_media", .jbool has_media)])], none⟩

/-- Model of the `/verify-wallet` handler (main.py lines 287-311).  The
`address` query parameter is `none` when absent; the handler body cannot
raise, so it returns a response directly. -/
def verify_wallet (sheets_service : Bool) (wallet_sheet_id : String)
    (wallet_address_column : Str) (address : Option String) (sheet : SheetFetch) :
    VerificationResponse :=
  if address.getD "" = "" then
    ⟨[("isValid", .jbool false)], some "Missing address parameter"⟩
  else if sheets_service = false then
    ⟨[("isValid", .jbool false)], some "Google Sheets integration not configured"⟩
  else if wallet_sheet_id = "" then
    ⟨[("isValid", .jbool false)], some "Wallet sheet ID not configured"⟩
  else
    match is_wallet_in_sheet sheets_service (address.getD "").data wallet_sheet_id
        wallet_address_column sheet with
    | .ok found =>
      ⟨[("isValid", .jbool found),
        ("details", .jobj [("wallet", .jstr (address.getD "")), ("found", .jbool found)])], none⟩
    | .error (.http m) =>
      ⟨[("isValid", .jbool false)], some ("Google Sheets API error: " ++ m)⟩
    | .error (.exc m) =>
      ⟨[("isValid", .jbool false)], some ("Error verifying wallet: " ++ m)⟩

/-- Value of a digit list in the bijective base-26 numeral system used by
`column_letter_to_index`, with digits 1..26. -/
def digitsVal (ds : List Nat) : Nat := ds.foldl (fun a d => a * 26 + d) 0

/-- The bijective base-26 digit expansion of a natural number (digits
1..26, most significant first); the inverse of `digitsVal` on valid digit
lists. -/
def toDigits : Nat → List Nat
  | 0 => []
  | n + 1 => toDigits (n / 26) ++ [n % 26 + 1]
decreasing_by
  simp_wf
  omega

/-! ### Character-level support lemmas -/

theorem char_toNat_inj {c d : Char} (h : c.toNat = d.toNat) : c = d :=
  Char.ext (UInt32.ext h)

theorem toNat_ofNat_valid {n : Nat} (h : n < 55296) : (Char.ofNat n).toNat = n := by
  rw [Char.ofNat, dif_pos (Or.inl h)]
  rfl

theorem uint32_le_iff {a b : UInt32} : a ≤ b ↔ a.toNat ≤ b.toNat := BitVec.le_def

theorem char_isWhitespace_iff (c : Char) :
    c.isWhitespace = true ↔ (c.toNat = 32 ∨ c.toNat = 9 ∨ c.toNat = 13 ∨ c.toNat = 10) := by
  unfold Char.isWhitespace
  simp only [Bool.or_eq_true, decide_eq_true_eq]
  constructor
  · rintro (((rfl | rfl) | rfl) | rfl) <;> decide
  · rintro (h | h | h | h)
    · exact Or.inl (Or.inl (Or.inl (char_toNat_inj (h.trans (by decide)))))
    · exact Or.inl (Or.inl (Or.inr (char_toNat_inj (h.trans (by decide)))))
    · exact Or.inl (Or.inr (char_toNat_inj (h.trans (by decide))))
    · exact Or.inr (char_toNat_inj (h.trans (by decide)))

theorem char_isUpper_iff (c : Char) :
    c.isUpper = true ↔ (65 ≤ c.toNat ∧ c.toNat ≤ 90) := by
  unfold Char.isUpper
  simp only [Bool.and_eq_true, decide_eq_true_eq, ge_iff_le]
  rw [uint32_le_iff, uint32_le_iff]
  constructor
  · intro ⟨h1, h2⟩; exact ⟨h1, h2⟩
  · intro ⟨h1, h2⟩; exact ⟨h1, h2⟩

theorem char_isLower_iff (c : Char) :
    c.isLower = true ↔ (97 ≤ c.toNat ∧ c.toNat ≤ 122) := by
  unfold Char.isLower
  simp only [Bool.and_eq_true, decide_eq_true_eq, ge_iff_le]
  rw [uint32_le_iff, uint32_le_iff]
  constructor
  · intro ⟨h1, h2⟩; exact ⟨h1, h2⟩
  · intro ⟨h1, h2⟩; exact ⟨h1, h2⟩

theorem char_isAlpha_iff (c : Char) :
    c.isAlpha = true ↔ ((65 ≤ c.toNat ∧ c.toNat ≤ 90) ∨ (97 ≤ c.toNat ∧ c.toNat ≤ 122)) := by
  unfold Char.isAlpha
  rw [Bool.or_eq_true, char_isUpper_iff, char_isLower_iff]

theorem toUpper_of_not_lower {c : Char} (h : c.toNat < 97) : Char.toUpper c = c := by
  simp only [Char.toUpper]
  rw [if_neg (by omega)]

theorem toUpper_toNat_lower {c : Char} (h1 : 97 ≤ c.toNat) (h2 : c.toNat ≤ 122) :
    (Char.toUpper c).toNat = c.toNat - 32 := by
  simp only [Char.toUpper]
  rw [if_pos ⟨h1, h2⟩]
  exact toNat_ofNat_valid (by omega)

theorem ws_toUpper (c : Char) : (Char.toUpper c).isWhitespace = c.isWhitespace := by
  by_cases h : 97 ≤ c.toNat ∧ c.toNat ≤ 122
  · have hup : (Char.toUpper c).toNat = c.toNat - 32 := toUpper_toNat_lower h.1 h.2
    have e1 : (Char.toUpper c).isWhitespace = false := by
      rw [← Bool.not_eq_true, char_isWhitespace_iff, hup]
      omega
    have e2 : c.isWhitespace = false := by
      rw [← Bool.not_eq_true, char_isWhitespace_iff]
      omega
    rw [e1, e2]
  · rcases Nat.lt_or_ge c.toNat 97 with hlt | hge
    · rw [toUpper_of_not_lower hlt]
    · have h2 : 122 < c.toNat := by omega
      have : Char.toUpper c = c := by
        simp only [Char.toUpper]
        rw [if_neg (by omega)]
      rw [this]

theorem alpha_toUpper (c : Char) : (Char.toUpper c).isAlpha = c.isAlpha := by
  by_cases h : 97 ≤ c.toNat ∧ c.toNat ≤ 122
  · have hup : (Char.toUpper c).toNat = c.toNat - 32 := toUpper_toNat_lower h.1 h.2
    have e1 : (Char.toUpper c).isAlpha = true := by
      rw [char_isAlpha_iff, hup]
      omega
    have e2 : c.isAlpha = true := by
      rw [char_isAlpha_iff]
      omega
    rw [e1, e2]
  · rcases Nat.lt_or_ge c.toNat 97 with hlt | hge
    · rw [toUpper_of_not_lower hlt]
    · have h2 : 122 < c.toNat := by omega
      have : Char.toUpper c = c := by
        simp only [Char.toUpper]
        rw [if_neg (by omega)]
      rw [this]

/-! ### List-level support lemmas -/

theorem dropWhile_all_false {p : Char → Bool} : ∀ (l : Str), (∀ c ∈ l, p c = false) →
    l.dropWhile p = l
  | [], _ => rfl
  | c :: t, h => by
    rw [List.dropWhile_cons, if_neg]
    simp [h c (List.mem_cons_self c t)]

theorem pyStrip_fix (l : Str) (h : ∀ c ∈ l, c.isWhitespace = false) : pyStrip l = l := by
  unfold pyStrip
  rw [dropWhile_all_false l h,
    dropWhile_all_false l.reverse (fun c hc => h c (List.mem_reverse.mp hc)),
    List.reverse_reverse]

theorem pyUpper_fix (l : Str) (h : ∀ c ∈ l, Char.toUpper c = c) : pyUpper l = l := by
  unfold pyUpper
  rw [List.map_congr_left h]
  exact List.map_id' l

theorem pyStrip_pyUpper (s : Str) : pyStrip (pyUpper s) = pyUpper (pyStrip s) := by
  have hws : (Char.isWhitespace ∘ Char.toUpper) = Char.isWhitespace := funext ws_toUpper
  unfold pyStrip pyUpper
  rw [List.dropWhile_map, hws, ← List.map_reverse, List.dropWhile_map, hws, ← List.map_reverse]

theorem containsSub_iff (hay pat : Str) :
    containsSub hay pat = true ↔ ∃ n, pat.isPrefixOf (hay.drop n) = true := by
  induction hay with
  | nil =>
    constructor
    · intro h
      refine ⟨0, ?_⟩
      cases pat <;> simp_all [containsSub, List.isPrefixOf]
    · rintro ⟨n, h⟩
      cases pat <;> simp_all [containsSub, List.isPrefixOf]
  | cons c t ih =>
    rw [show containsSub (c :: t) pat = (pat.isPrefixOf (c :: t) || containsSub t pat) from rfl,
      Bool.or_eq_true, ih]
    constructor
    · rintro (h | ⟨n, h⟩)
      · exact ⟨0, h⟩
      · exact ⟨n + 1, h⟩
    · rintro ⟨n, h⟩
      match n with
      | 0 => exact Or.inl h
      | m + 1 => exact Or.inr ⟨m, h⟩

theorem rowsScan_iff (rows : List (List Str)) (ci : Nat) (target : Str) :
    rowsScan rows ci target = true ↔
      ∃ row ∈ rows, ci < row.length ∧ pyLower (pyStrip (row.getD ci [])) = target := by
  unfold rowsScan
  rw [List.any_eq_true]
  constructor
  · rintro ⟨row, hm, hp⟩
    rw [Bool.and_eq_true, decide_eq_true_eq, decide_eq_true_eq] at hp
    exact ⟨row, hm, hp⟩
  · rintro ⟨row, hm, h1, h2⟩
    exact ⟨row, hm, by rw [Bool.and_eq_true, decide_eq_true_eq, decide_eq_true_eq]; exact ⟨h1, h2⟩⟩

/-! ### Claim theorems -/

/-- Claim C10: `is_email_in_sheet` and `is_wallet_in_sheet` compute the
same function: for every service state, target string, sheet id, column
letter and sheet outcome, the returned boolean and the error behaviour
are identical. -/
theorem c10_email_wallet_same_function :
    ∀ (service : Bool) (target : Str) (sheet_id : String) (col : Str) (sheet : SheetFetch),
      is_email_in_sheet service target sheet_id col sheet =
        is_wallet_in_sheet service target sheet_id col sheet := by
  intro service target sheet_id col sheet
  rfl

/-- Claim C9: `column_letter_to_index` signals the ValueError (modelled as
`none`) for every input that, after trimming, is empty or contains a
non-alphabetic character, and in particular for the empty string, for
strings containing a digit, and for an em-dash. -/
theorem c9_invalid_column_spec :
    (∀ s : Str, (pyStrip s = [] ∨ ∃ c ∈ pyStrip s, c.isAlpha = false) →
      column_letter_to_index s = none) ∧
    column_letter_to_index [] = none ∧
    column_letter_to_index ['1'] = none ∧
    column_letter_to_index ['A', '1'] = none ∧
    column_letter_to_index ['—'] = none := by
  refine ⟨?_, by decide, by decide, by decide, by decide⟩
  intro s h
  unfold column_letter_to_index
  rw [pyStrip_pyUpper, if_pos]
  rcases h with h | ⟨c, hc, hna⟩
  · left
    rw [h]
    rfl
  · right
    intro hall
    rw [List.all_eq_true] at hall
    have := hall (Char.toUpper c) (List.mem_map_of_mem Char.toUpper hc)
    rw [alpha_toUpper] at this
    rw [hna] at this
    exact Bool.false_ne_true this

theorem is_email_in_sheet_ok (target : Str) (sid : String) (col : Str)
    (values : List (List Str)) (h : sid ≠ "") :
    is_email_in_sheet true target sid col (.ok values) =
      if values = [] then .ok false
      else
        match column_letter_to_index col with
        | none => .ok false
        | some ci =>
          if (values.headD []).length ≤ ci then .ok false
          else .ok (rowsScan (values.drop 1) ci (pyLower (pyStrip target))) := by
  unfold is_email_in_sheet
  rw [if_neg (by simp), if_neg h]

theorem is_email_in_sheet_err (target : Str) (sid : String) (col : Str)
    (e : SheetErr) (h : sid ≠ "") :
    is_email_in_sheet true target sid col (.error e) = .error e := by
  unfold is_email_in_sheet
  rw [if_neg (by simp), if_neg h]

/-- Claim C1: the sheet lookup returns true iff some data row (a row after
the first) has a cell at the resolved column index whose stripped,
lowercased value equals the stripped, lowercased target; an empty table
gives false; a resolved column index at or beyond the width of the first
row gives false rather than raising; rows shorter than the column index
are non-matching. -/
theorem c1_sheet_lookup_membership :
    ∀ (target : Str) (sheet_id : String) (col : Str) (ci : Nat) (values : List (List Str)),
      sheet_id ≠ "" →
      column_letter_to_index col = some ci →
      (is_email_in_sheet true target sheet_id col (.ok []) = .ok false) ∧
      (values ≠ [] → (values.headD []).length ≤ ci →
        is_email_in_sheet true target sheet_id col (.ok values) = .ok false) ∧
      (values ≠ [] → ci < (values.headD []).length →
        (is_email_in_sheet true target sheet_id col (.ok values) = .ok true ↔
          ∃ row ∈ values.drop 1, ci < row.length ∧
            pyLower (pyStrip (row.getD ci [])) = pyLower (pyStrip target))) := by
  intro target sheet_id col ci values hsid hcol
  refine ⟨?_, ?_, ?_⟩
  · rw [is_email_in_sheet_ok _ _ _ _ hsid, if_pos rfl]
  · intro hne hle
    rw [is_email_in_sheet_ok _ _ _ _ hsid, if_neg hne, hcol]
    show (if (values.headD []).length ≤ ci then Except.ok false
          else Except.ok (rowsScan (values.drop 1) ci (pyLower (pyStrip target)))) =
        Except.ok false
    rw [if_pos hle]
  · intro hne hlt
    rw [is_email_in_sheet_ok _ _ _ _ hsid, if_neg hne, hcol]
    show ((if (values.headD []).length ≤ ci then Except.ok false
          else Except.ok (rowsScan (values.drop 1) ci (pyLower (pyStrip target)))) =
        Except.ok true) ↔ _
    rw [if_neg (Nat.not_le.mpr hlt), Except.ok.injEq]
    exact rowsScan_iff (values.drop 1) ci (pyLower (pyStrip target))

theorem c1_sheet_lookup_membership_witness :
    is_email_in_sheet true "Foo@Bar.com ".data "sheet1" "A".data
      (.ok [["header".data], [" foo@bar.com".data]]) = .ok true := by
  have h := c1_sheet_lookup_membership "Foo@Bar.com ".data "sheet1" "A".data 0
    [["header".data], [" foo@bar.com".data]] (by decide) (by decide)
  exact (h.2.2 (by decide) (by decide)).mpr
    ⟨[" foo@bar.com".data], by decide, by decide, by decide⟩

theorem c9_invalid_column_spec_witness : column_letter_to_index [' '] = none :=
  c9_invalid_column_spec.1 [' '] (Or.inl (by decide))

/-- Claim C5: tweet-id extraction returns the numeric id following the
status segment of the URL, and for every request URL with no such segment
the share-nft handler reports the invalid-post-URL validation error
before any fetch is attempted (its response is the same for every fetch
outcome). -/
theorem c5_tweet_id_validation :
    extract_tweet_id_from_url "https://x.com/user/status/12345".data = some "12345".data ∧
    (∀ (fields : List (String × PyVal)) (turl : Str) (f1 f2 : FetchOutcome),
      orEmptyStrip (fields.lookup "tweetUrl") = .ok turl →
      turl ≠ [] →
      extract_tweet_id_from_url turl = none →
      verify_share_nft (some (.obj fields)) f1 =
          .ok ⟨[("isValid", .jbool false)], some "Invalid X post URL"⟩ ∧
        verify_share_nft (some (.obj fields)) f1 = verify_share_nft (some (.obj fields)) f2) := by
  refine ⟨by decide, ?_⟩
  intro fields turl f1 f2 hturl hne hex
  have key : ∀ f : FetchOutcome, verify_share_nft (some (.obj fields)) f =
      .ok ⟨[("isValid", .jbool false)], some "Invalid X post URL"⟩ := by
    intro f
    simp only [verify_share_nft, bodyGet, hturl]
    rw [if_neg hne, hex]
  exact ⟨key f1, (key f1).trans (key f2).symm⟩

theorem c5_tweet_id_validation_witness :
    verify_share_nft (some (.obj [("tweetUrl", .str "https://x.com/user")]))
        (.success 200 []) =
      .ok ⟨[("isValid", .jbool false)], some "Invalid X post URL"⟩ :=
  (c5_tweet_id_validation.2 [("tweetUrl", .str "https://x.com/user")]
    "https://x.com/user".data (.success 200 []) (.exc "boom")
    rfl (by decide) (by decide)).1

theorem is_email_in_sheet_isOk (target : Str) (sid : String) (col : Str)
    (values : List (List Str)) (h : sid ≠ "") :
    ∃ b, is_email_in_sheet true target sid col (.ok values) = .ok b := by
  rw [is_email_in_sheet_ok _ _ _ _ h]
  split
  · exact ⟨false, rfl⟩
  · split
    · exact ⟨false, rfl⟩
    · split
      · exact ⟨false, rfl⟩
      · exact ⟨_, rfl⟩

/-- Claim C4: for every fetched response with status code at least 400,
both content-check handlers return the unreachable-error result (rather
than raising), with the status code recorded in the details. -/
theorem c4_unreachable_status_recorded :
    ∀ (fields : List (String × PyVal)) (status : Nat) (text : Str) (link turl : Str),
      400 ≤ status →
      (orEmptyStrip (fields.lookup "link") = .ok link → link ≠ [] →
        verify_content (some (.obj fields)) (.success status text) =
          .ok ⟨[("isValid", .jbool false),
                ("details", .jobj [("reason", .jstr "unreachable"),
                                   ("status_code", .jnum status)])], none⟩) ∧
      (orEmptyStrip (fields.lookup "tweetUrl") = .ok turl → turl ≠ [] →
       (∃ tid, extract_tweet_id_from_url turl = some tid) →
        verify_share_nft (some (.obj fields)) (.success status text) =
          .ok ⟨[("isValid", .jbool false),
                ("details", .jobj [("reason", .jstr "unreachable"),
                                   ("status_code", .jnum status)])], none⟩) := by
  intro fields status text link turl hst
  constructor
  · intro hlink hne
    simp only [verify_content, bodyGet, hlink]
    rw [if_neg hne, if_pos hst]
  · rintro hturl hne ⟨tid, htid⟩
    simp only [verify_share_nft, bodyGet, hturl]
    rw [if_neg hne]
    simp only [htid]
    rw [if_pos hst]

theorem c4_unreachable_status_recorded_witness :
    verify_content (some (.obj [("link", .str "http://example.com")])) (.success 404 []) =
        .ok ⟨[("isValid", .jbool false),
              ("details", .jobj [("reason", .jstr "unreachable"),
                                 ("status_code", .jnum 404)])], none⟩ ∧
      verify_share_nft (some (.obj [("tweetUrl", .str "https://x.com/u/status/9")]))
          (.success 404 []) =
        .ok ⟨[("isValid", .jbool false),
              ("details", .jobj [("reason", .jstr "unreachable"),
                                 ("status_code", .jnum 404)])], none⟩ := by
  have h := c4_unreachable_status_recorded [("link", .str "http://example.com")] 404 []
    "http://example.com".data [] (by decide)
  have h2 := c4_unreachable_status_recorded [("tweetUrl", .str "https://x.com/u/status/9")]
    404 [] [] "https://x.com/u/status/9".data (by decide)
  exact ⟨h.1 rfl (by decide), h2.2 rfl (by decide) ⟨"9".data, by decide⟩⟩

/-- Claim C6: when the spreadsheet client is unavailable or the sheet id
is empty, the agent-application verification reports the corresponding
configuration error in the envelope (distinguishable from a not-found
result, whose envelope carries no error), and the response does not
depend on the sheet oracle (no remote call is attempted). -/
theorem c6_unconfigured_reported :
    ∀ (service : Bool) (sid : String) (col : Str) (fields : List (String × PyVal))
      (email : Str) (sheet : SheetFetch) (values : List (List Str)),
      orEmptyStrip (fields.lookup "email") = .ok email →
      email ≠ [] →
      (service = false →
        verify_agent_application service sid col (some (.obj fields)) sheet =
          .ok ⟨[("isValid", .jbool false)], some "Google Sheets integration not configured"⟩) ∧
      (sid = "" →
        verify_agent_application true sid col (some (.obj fields)) sheet =
          .ok ⟨[("isValid", .jbool false)], some "Agent sheet ID not configured"⟩) ∧
      (sid ≠ "" → ∃ b,
        verify_agent_application true sid col (some (.obj fields)) (.ok values) =
          .ok ⟨[("isValid", .jbool b),
                ("details", .jobj [("email", .jstr ⟨email⟩),
                                   ("found", .jbool b)])], none⟩) := by
  intro service sid col fields email sheet values hemail hne
  refine ⟨?_, ?_, ?_⟩
  · intro hs
    simp only [verify_agent_application, bodyGet, hemail]
    rw [if_neg hne, if_pos hs]
  · intro hsid
    simp only [verify_agent_application, bodyGet, hemail]
    rw [if_neg hne, if_neg (by simp), if_pos hsid]
  · intro hsid
    obtain ⟨b, hb⟩ := is_email_in_sheet_isOk email sid col values hsid
    refine ⟨b, ?_⟩
    simp only [verify_agent_application, bodyGet, hemail]
    rw [if_neg hne, if_neg (by simp), if_neg hsid]
    simp only [hb]

theorem c6_unconfigured_reported_witness :
    verify_agent_application false "sheet1" "A".data
        (some (.obj [("email", .str "e@x.com")])) (.ok [["h".data]]) =
      .ok ⟨[("isValid", .jbool false)], some "Google Sheets integration not configured"⟩ :=
  (c6_unconfigured_reported false "sheet1" "A".data [("email", .str "e@x.com")]
    "e@x.com".data (.ok [["h".data]]) [] rfl (by decide)).1 rfl

/-- Claim C7: a spreadsheet API failure raised during a lookup propagates
out of the lookup function as an error, and the handler renders it as an
error envelope carrying a message, never silently coercing it to a false
not-found result. -/
theorem c7_api_failure_propagates :
    ∀ (email : Str) (sid : String) (col : Str) (e : SheetErr)
      (fields : List (String × PyVal)) (femail : Str) (m : String),
      (sid ≠ "" → is_email_in_sheet true email sid col (.error e) = .error e) ∧
      (orEmptyStrip (fields.lookup "email") = .ok femail → femail ≠ [] → sid ≠ "" →
        verify_agent_application true sid col (some (.obj fields)) (.error (.http m)) =
            .ok ⟨[("isValid", .jbool false)], some ("Google Sheets API error: " ++ m)⟩ ∧
          verify_agent_application true sid col (some (.obj fields)) (.error (.exc m)) =
            .ok ⟨[("isValid", .jbool false)], some ("Error verifying email: " ++ m)⟩) := by
  intro email sid col e fields femail m
  constructor
  · intro h
    exact is_email_in_sheet_err email sid col e h
  · intro hf hne hsid
    constructor <;>
    · simp only [verify_agent_application, bodyGet, hf]
      rw [if_neg hne, if_neg (by simp), if_neg hsid,
        is_email_in_sheet_err _ _ _ _ hsid]

theorem c7_api_failure_propagates_witness :
    verify_agent_application true "sheet1" "A".data
        (some (.obj [("email", .str "e@x.com")])) (.error (.http "quota exceeded")) =
      .ok ⟨[("isValid", .jbool false)],
           some ("Google Sheets API error: " ++ "quota exceeded")⟩ :=
  ((c7_api_failure_propagates "e@x.com".data "sheet1" "A".data (.http "quota exceeded")
    [("email", .str "e@x.com")] "e@x.com".data "quota exceeded").2
    rfl (by decide) (by decide)).1

/-- Claim C3 counterexample: a page that contains all four substrings of
the claimed ruleset (the hashtags and the sentence fragment) but not the
mention the code actually requires is judged invalid, and the response
carries an isValid flag, not a point value of 500. -/
theorem c3_point_ruleset_counterexample :
    verify_content (some (.obj [("link", .str "http://example.com/post")]))
        (.success 200 "#AGV #Tree #RWA post. AGV Protocol is great".data) =
      .ok ⟨[("isValid", .jbool false),
            ("details", .jobj [("hasAGV", .jbool true), ("hasTREE", .jbool true),
                               ("hasRWA", .jbool true), ("hasTag", .jbool false)])], none⟩ ∧
    containsSub (pyLower "#AGV #Tree #RWA post. AGV Protocol is great".data)
        "#agv".data = true ∧
    containsSub (pyLower "#AGV #Tree #RWA post. AGV Protocol is great".data)
        "#tree".data = true ∧
    containsSub (pyLower "#AGV #Tree #RWA post. AGV Protocol is great".data)
        "#rwa".data = true ∧
    containsSub (pyLower "#AGV #Tree #RWA post. AGV Protocol is great".data)
        "agv protocol".data = true := by
  exact ⟨rfl, by decide, by decide, by decide, by decide⟩

/-- Claim C3 amended: the content check requires the four substrings
agv, tree, rwa and the agvprotocol mention (case-insensitively) and
returns a boolean isValid flag that is true exactly when all four are
present; any single missing substring makes it false.  The response is
the envelope with the isValid flag and per-predicate details, not a
point value. -/
theorem c3_content_matcher_amended :
    ∀ (fields : List (String × PyVal)) (link : Str) (status : Nat) (text : Str),
      orEmptyStrip (fields.lookup "link") = .ok link →
      link ≠ [] →
      status < 400 →
      ∃ a b c d : Bool,
        verify_content (some (.obj fields)) (.success status text) =
          .ok ⟨[("isValid", .jbool (a && b && c && d)),
                ("details", .jobj [("hasAGV", .jbool a), ("hasTREE", .jbool b),
                                   ("hasRWA", .jbool c), ("hasTag", .jbool d)])], none⟩ ∧
        (a = true ↔ ∃ n, List.isPrefixOf ['a', 'g', 'v'] ((pyLower text).drop n) = true) ∧
        (b = true ↔ ∃ n, List.isPrefixOf ['t', 'r', 'e', 'e'] ((pyLower text).drop n) = true) ∧
        (c = true ↔ ∃ n, List.isPrefixOf ['r', 'w', 'a'] ((pyLower text).drop n) = true) ∧
        (d = true ↔ ∃ n, List.isPrefixOf
          ['@', 'a', 'g', 'v', 'p', 'r', 'o', 't', 'o', 'c', 'o', 'l']
          ((pyLower text).drop n) = true) ∧
        ((a && b && c && d) = true ↔
          ((∃ n, List.isPrefixOf ['a', 'g', 'v'] ((pyLower text).drop n) = true) ∧
           (∃ n, List.isPrefixOf ['t', 'r', 'e', 'e'] ((pyLower text).drop n) = true) ∧
           (∃ n, List.isPrefixOf ['r', 'w', 'a'] ((pyLower text).drop n) = true) ∧
           (∃ n, List.isPrefixOf ['@', 'a', 'g', 'v', 'p', 'r', 'o', 't', 'o', 'c', 'o', 'l']
             ((pyLower text).drop n) = true))) := by
  intro fields link status text hlink hne hst
  refine ⟨containsSub (pyLower text) ['a', 'g', 'v'],
    containsSub (pyLower text) ['t', 'r', 'e', 'e'],
    containsSub (pyLower text) ['r', 'w', 'a'],
    containsSub (pyLower text) ['@', 'a', 'g', 'v', 'p', 'r', 'o', 't', 'o', 'c', 'o', 'l'],
    ?_, containsSub_iff _ _, containsSub_iff _ _, containsSub_iff _ _, containsSub_iff _ _, ?_⟩
  · simp only [verify_content, bodyGet, hlink]
    rw [if_neg hne, if_neg (Nat.not_le.mpr hst)]
  · rw [Bool.and_eq_true, Bool.and_eq_true, Bool.and_eq_true,
      containsSub_iff, containsSub_iff, containsSub_iff, containsSub_iff]
    constructor
    · rintro ⟨⟨⟨h1, h2⟩, h3⟩, h4⟩
      exact ⟨h1, h2, h3, h4⟩
    · rintro ⟨h1, h2, h3, h4⟩
      exact ⟨⟨⟨h1, h2⟩, h3⟩, h4⟩

theorem c3_content_matcher_amended_witness :
    ∃ a b c d : Bool,
      verify_content (some (.obj [("link", .str "http://example.com/post")])) (.success 200
          "#agv #tree #rwa @agvprotocol".data) =
        .ok ⟨[("isValid", .jbool (a && b && c && d)),
              ("details", .jobj [("hasAGV", .jbool a), ("hasTREE", .jbool b),
                                 ("hasRWA", .jbool c), ("hasTag", .jbool d)])], none⟩ ∧
      (a = true ↔ ∃ n, List.isPrefixOf ['a', 'g', 'v']
        ((pyLower "#agv #tree #rwa @agvprotocol".data).drop n) = true) ∧
      (b = true ↔ ∃ n, List.isPrefixOf ['t', 'r', 'e', 'e']
        ((pyLower "#agv #tree #rwa @agvprotocol".data).drop n) = true) ∧
      (c = true ↔ ∃ n, List.isPrefixOf ['r', 'w', 'a']
        ((pyLower "#agv #tree #rwa @agvprotocol".data).drop n) = true) ∧
      (d = true ↔ ∃ n, List.isPrefixOf
        ['@', 'a', 'g', 'v', 'p', 'r', 'o', 't', 'o', 'c', 'o', 'l']
        ((pyLower "#agv #tree #rwa @agvprotocol".data).drop n) = true) ∧
      ((a && b && c && d) = true ↔
        ((∃ n, List.isPrefixOf ['a', 'g', 'v']
            ((pyLower "#agv #tree #rwa @agvprotocol".data).drop n) = true) ∧
         (∃ n, List.isPrefixOf ['t', 'r', 'e', 'e']
            ((pyLower "#agv #tree #rwa @agvprotocol".data).drop n) = true) ∧
         (∃ n, List.isPrefixOf ['r', 'w', 'a']
            ((pyLower "#agv #tree #rwa @agvprotocol".data).drop n) = true) ∧
         (∃ n, List.isPrefixOf ['@', 'a', 'g', 'v', 'p', 'r', 'o', 't', 'o', 'c', 'o', 'l']
            ((pyLower "#agv #tree #rwa @agvprotocol".data).drop n) = true))) :=
  c3_content_matcher_amended [("link", .str "http://example.com/post")]
    "http://example.com/post".data 200 "#agv #tree #rwa @agvprotocol".data
    rfl (by decide) (by decide)

theorem verify_content_obj_total (fields : List (String × PyVal)) (fetch : FetchOutcome)
    (link : Str) (hl : orEmptyStrip (fields.lookup "link") = .ok link) :
    ∃ r, verify_content (some (.obj fields)) fetch = .ok r := by
  by_cases h : link = []
  · exact ⟨_, by simp only [verify_content, bodyGet, hl]; rw [if_pos h]⟩
  · cases fetch with
    | exc m => exact ⟨_, by simp only [verify_content, bodyGet, hl]; rw [if_neg h]⟩
    | success status text =>
      by_cases hs : 400 ≤ status
      · exact ⟨_, by simp only [verify_content, bodyGet, hl]; rw [if_neg h, if_pos hs]⟩
      · exact ⟨_, by simp only [verify_content, bodyGet, hl]; rw [if_neg h, if_neg hs]⟩

theorem verify_share_nft_obj_total (fields : List (String × PyVal)) (fetch : FetchOutcome)
    (turl : Str) (hu : orEmptyStrip (fields.lookup "tweetUrl") = .ok turl) :
    ∃ r, verify_share_nft (some (.obj fields)) fetch = .ok r := by
  by_cases h : turl = []
  · exact ⟨_, by simp only [verify_share_nft, bodyGet, hu]; rw [if_pos h]⟩
  · cases hex : extract_tweet_id_from_url turl with
    | none =>
      exact ⟨_, by
        simp only [verify_share_nft, bodyGet, hu]; rw [if_neg h]; simp only [hex]; rfl⟩
    | some tid =>
      cases fetch with
      | exc m =>
        exact ⟨_, by
          simp only [verify_share_nft, bodyGet, hu]; rw [if_neg h]; simp only [hex]; rfl⟩
      | success status text =>
        by_cases hs : 400 ≤ status
        · exact ⟨_, by
            simp only [verify_share_nft, bodyGet, hu]; rw [if_neg h]; simp only [hex]
            rw [if_pos hs]⟩
        · exact ⟨_, by
            simp only [verify_share_nft, bodyGet, hu]; rw [if_neg h]; simp only [hex]
            rw [if_neg hs]⟩

theorem verify_agent_application_obj_total (service : Bool) (sid : String) (col : Str)
    (fields : List (String × PyVal)) (sheet : SheetFetch) (email : Str)
    (hm : orEmptyStrip (fields.lookup "email") = .ok email) :
    ∃ r, verify_agent_application service sid col (some (.obj fields)) sheet = .ok r := by
  by_cases h : email = []
  · exact ⟨_, by simp only [verify_agent_application, bodyGet, hm]; rw [if_pos h]⟩
  by_cases hs : service = false
  · exact ⟨_, by simp only [verify_agent_application, bodyGet, hm]; rw [if_neg h, if_pos hs]⟩
  by_cases hsid : sid = ""
  · exact ⟨_, by
      simp only [verify_agent_application, bodyGet, hm]; rw [if_neg h, if_neg hs, if_pos hsid]⟩
  cases he : is_email_in_sheet service email sid col sheet with
  | ok b =>
    exact ⟨_, by
      simp only [verify_agent_application, bodyGet, hm]; rw [if_neg h, if_neg hs, if_neg hsid]
      simp only [he]
      rfl⟩
  | error e =>
    cases e with
    | http m =>
      exact ⟨_, by
        simp only [verify_agent_application, bodyGet, hm]; rw [if_neg h, if_neg hs, if_neg hsid]
        simp only [he]
        rfl⟩
    | exc m =>
      exact ⟨_, by
        simp only [verify_agent_application, bodyGet, hm]; rw [if_neg h, if_neg hs, if_neg hsid]
        simp only [he]
        rfl⟩

/-- Claim C8 counterexample: a request whose body is valid JSON but not a
JSON object (for example the array [1, 2]) raises AttributeError from the
body attribute access, and a request whose body is a JSON object holding
a truthy non-string value at the required field (for example email 5)
raises AttributeError from the strip call; both escape the handler as
transport-level failures instead of envelopes. -/
theorem c8_exception_escapes_counterexample :
    verify_content (some .nonobj) (.success 200 []) =
        .error "AttributeError: body has no attribute get" ∧
      verify_content (some (.obj [("link", .nonstr true)])) (.success 200 []) =
        .error "AttributeError: value has no attribute strip" ∧
      verify_agent_application true "sheet1" "A".data
          (some (.obj [("email", .nonstr true)])) (.ok []) =
        .error "AttributeError: value has no attribute strip" :=
  ⟨rfl, rfl, rfl⟩

/-- Claim C8 amended: each verification handler returns the uniform
envelope for every inbound request whose body is absent, unparseable, or
a JSON object in which the field the handler reads is absent, a string,
or a falsy value; a missing required field yields a structured error with
a false result and a response independent of the fetch or sheet oracle
(no network call).  A valid-JSON non-object body, or an object body whose
read field holds a truthy non-string value, escapes as an exception
instead. -/
theorem c8_envelope_uniform :
    ∀ (service : Bool) (sid : String) (col : Str) (fields : List (String × PyVal))
      (sheet : SheetFetch) (fetch : FetchOutcome) (addr : Option String)
      (email link turl : Str),
      (verify_agent_application service sid col none sheet =
        .ok ⟨[("isValid", .jbool false)], some "Invalid JSON body"⟩) ∧
      (verify_content none fetch = .ok ⟨[("isValid", .jbool false)], some "Invalid JSON body"⟩) ∧
      (verify_share_nft none fetch =
        .ok ⟨[("isValid", .jbool false)], some "Invalid JSON body"⟩) ∧
      (orEmptyStrip (fields.lookup "email") = .ok email →
        ∃ r, verify_agent_application service sid col (some (.obj fields)) sheet = .ok r) ∧
      (orEmptyStrip (fields.lookup "link") = .ok link →
        ∃ r, verify_content (some (.obj fields)) fetch = .ok r) ∧
      (orEmptyStrip (fields.lookup "tweetUrl") = .ok turl →
        ∃ r, verify_share_nft (some (.obj fields)) fetch = .ok r) ∧
      (orEmptyStrip (fields.lookup "email") = .ok [] →
        verify_agent_application service sid col (some (.obj fields)) sheet =
          .ok ⟨[("isValid", .jbool false)], some "Missing email"⟩) ∧
      (orEmptyStrip (fields.lookup "link") = .ok [] →
        verify_content (some (.obj fields)) fetch =
          .ok ⟨[("isValid", .jbool false)], some "Missing link in request body"⟩) ∧
      (orEmptyStrip (fields.lookup "tweetUrl") = .ok [] →
        verify_share_nft (some (.obj fields)) fetch =
          .ok ⟨[("isValid", .jbool false)], some "Missing tweetUrl in request body"⟩) ∧
      (addr.getD "" = "" →
        verify_wallet service sid col addr sheet =
          ⟨[("isValid", .jbool false)], some "Missing address parameter"⟩) := by
  intro service sid col fields sheet fetch addr email link turl
  refine ⟨rfl, rfl, rfl,
    verify_agent_application_obj_total service sid col fields sheet email,
    verify_content_obj_total fields fetch link,
    verify_share_nft_obj_total fields fetch turl, ?_, ?_, ?_, ?_⟩
  · intro h
    simp only [verify_agent_application, bodyGet, h]
    simp
  · intro h
    simp only [verify_content, bodyGet, h]
    simp
  · intro h
    simp only [verify_share_nft, bodyGet, h]
    simp
  · intro h
    unfold verify_wallet
    rw [if_pos h]

theorem c8_envelope_uniform_witness :
    verify_agent_application true "sheet1" "A".data (some (.obj [])) (.ok []) =
      .ok ⟨[("isValid", .jbool false)], some "Missing email"⟩ :=
  (c8_envelope_uniform true "sheet1" "A".data [] (.ok []) (.success 200 [])
    none [] [] []).2.2.2.2.2.2.1 rfl

/-! ### Bijective base-26 lemmas for Claim C2 -/

theorem digitsVal_append (ds : List Nat) (d : Nat) :
    digitsVal (ds ++ [d]) = 26 * digitsVal ds + d := by
  unfold digitsVal
  rw [List.foldl_append]
  simp only [List.foldl_cons, List.foldl_nil]
  omega

theorem digitsVal_toDigits : ∀ n, digitsVal (toDigits n) = n := by
  intro n
  induction n using Nat.strong_induction_on with
  | _ n ih =>
    match n with
    | 0 => simp [toDigits, digitsVal]
    | m + 1 =>
      rw [toDigits, digitsVal_append, ih (m / 26) (by omega)]
      omega

theorem toDigits_mem : ∀ n, ∀ d ∈ toDigits n, 1 ≤ d ∧ d ≤ 26 := by
  intro n
  induction n using Nat.strong_induction_on with
  | _ n ih =>
    match n with
    | 0 =>
      intro d hd
      simp [toDigits] at hd
    | m + 1 =>
      intro d hd
      rw [toDigits] at hd
      rcases List.mem_append.mp hd with h | h
      · exact ih (m / 26) (by omega) d h
      · rw [List.mem_singleton] at h
        subst h
        omega

theorem toDigits_ne_nil (n : Nat) (h : n ≠ 0) : toDigits n ≠ [] := by
  match n with
  | m + 1 =>
    rw [toDigits]
    simp

theorem toDigits_digitsVal : ∀ ds : List Nat, (∀ d ∈ ds, 1 ≤ d ∧ d ≤ 26) →
    toDigits (digitsVal ds) = ds := by
  intro ds
  induction ds using List.reverseRecOn with
  | nil =>
    intro _
    simp [digitsVal, toDigits]
  | append_singleton ds d ih =>
    intro h
    have hd : 1 ≤ d ∧ d ≤ 26 := h d (by simp)
    rw [digitsVal_append]
    have h26 : 26 * digitsVal ds + d = (26 * digitsVal ds + (d - 1)) + 1 := by omega
    rw [h26, toDigits]
    have hdiv : (26 * digitsVal ds + (d - 1)) / 26 = digitsVal ds := by omega
    have hmod : (26 * digitsVal ds + (d - 1)) % 26 = d - 1 := by omega
    rw [hdiv, hmod, ih (fun x hx => h x (by simp [hx]))]
    have : d - 1 + 1 = d := by omega
    rw [this]

theorem digitsVal_pos (ds : List Nat) (hne : ds ≠ []) (h : ∀ d ∈ ds, 1 ≤ d) :
    1 ≤ digitsVal ds := by
  induction ds using List.reverseRecOn with
  | nil => exact absurd rfl hne
  | append_singleton ds d _ =>
    rw [digitsVal_append]
    have := h d (by simp)
    omega

theorem lettersVal_eq (l : Str) : lettersVal l = digitsVal (l.map charValue) := by
  unfold lettersVal digitsVal
  rw [List.foldl_map]

theorem charValue_bounds {c : Char} (h1 : 65 ≤ c.toNat) (h2 : c.toNat ≤ 90) :
    1 ≤ charValue c ∧ charValue c ≤ 26 := by
  unfold charValue
  have hA : 'A'.toNat = 65 := rfl
  rw [hA]
  omega

theorem map_charValue_inj : ∀ (l1 l2 : Str),
    (∀ c ∈ l1, 65 ≤ c.toNat ∧ c.toNat ≤ 90) → (∀ c ∈ l2, 65 ≤ c.toNat ∧ c.toNat ≤ 90) →
    l1.map charValue = l2.map charValue → l1 = l2
  | [], [], _, _, _ => rfl
  | [], _ :: _, _, _, h => by simp at h
  | _ :: _, [], _, _, h => by simp at h
  | a :: l1, b :: l2, h1, h2, h => by
    simp only [List.map_cons, List.cons.injEq] at h
    have ha := h1 a (by simp)
    have hb := h2 b (by simp)
    have hab : a = b := by
      apply char_toNat_inj
      have hv := h.1
      unfold charValue at hv
      have hA : 'A'.toNat = 65 := rfl
      rw [hA] at hv
      omega
    rw [hab, map_charValue_inj l1 l2 (fun c hc => h1 c (by simp [hc]))
      (fun c hc => h2 c (by simp [hc])) h.2]

theorem az_not_ws {c : Char} (h1 : 65 ≤ c.toNat) (h2 : c.toNat ≤ 90) :
    c.isWhitespace = false := by
  rw [← Bool.not_eq_true, char_isWhitespace_iff]
  omega

theorem az_isAlpha {c : Char} (h1 : 65 ≤ c.toNat) (h2 : c.toNat ≤ 90) : c.isAlpha = true := by
  rw [char_isAlpha_iff]
  exact Or.inl ⟨h1, h2⟩

theorem az_toUpper_fix {c : Char} (h2 : c.toNat ≤ 90) : Char.toUpper c = c :=
  toUpper_of_not_lower (by omega)

theorem column_letter_to_index_norm (l : Str) (hne : l ≠ [])
    (hb : ∀ c ∈ l, 65 ≤ c.toNat ∧ c.toNat ≤ 90) :
    column_letter_to_index l = some (lettersVal l - 1) := by
  have hup : pyUpper l = l := pyUpper_fix l (fun c hc => az_toUpper_fix (hb c hc).2)
  have hstrip : pyStrip l = l := pyStrip_fix l (fun c hc => az_not_ws (hb c hc).1 (hb c hc).2)
  simp only [column_letter_to_index]
  rw [hup, hstrip, if_neg]
  rintro (h | h)
  · exact hne h
  · exact h (List.all_eq_true.mpr (fun c hc => az_isAlpha (hb c hc).1 (hb c hc).2))

theorem charValue_map_bounds {l : Str} (hb : ∀ c ∈ l, 65 ≤ c.toNat ∧ c.toNat ≤ 90) :
    ∀ d ∈ l.map charValue, 1 ≤ d ∧ d ≤ 26 := by
  intro d hd
  rcases List.mem_map.mp hd with ⟨c, hc, rfl⟩
  exact charValue_bounds (hb c hc).1 (hb c hc).2

theorem lettersVal_pos (l : Str) (hne : l ≠ [])
    (hb : ∀ c ∈ l, 65 ≤ c.toNat ∧ c.toNat ≤ 90) : 1 ≤ lettersVal l := by
  rw [lettersVal_eq]
  apply digitsVal_pos
  · simp [hne]
  · intro d hd
    exact (charValue_map_bounds hb d hd).1

/-- Claim C2: `column_letter_to_index` computes the bijective base-26
value of every normalized valid letter sequence (left-to-right fold with
digit values 1..26, minus one), giving the expected concrete indices, and
the mapping from normalized valid specs (nonempty sequences of the
characters A through Z) to indices is injective and surjective onto the
natural numbers. -/
theorem c2_column_locator_bijection :
    (column_letter_to_index "A".data = some 0 ∧
     column_letter_to_index "Z".data = some 25 ∧
     column_letter_to_index "AA".data = some 26 ∧
     column_letter_to_index "AB".data = some 27 ∧
     column_letter_to_index "F".data = some 5 ∧
     column_letter_to_index "S".data = some 18) ∧
    (∀ l : Str, l ≠ [] → (∀ c ∈ l, 65 ≤ c.toNat ∧ c.toNat ≤ 90) →
      column_letter_to_index l = some (lettersVal l - 1)) ∧
    (∀ l1 l2 : Str, l1 ≠ [] → (∀ c ∈ l1, 65 ≤ c.toNat ∧ c.toNat ≤ 90) →
      l2 ≠ [] → (∀ c ∈ l2, 65 ≤ c.toNat ∧ c.toNat ≤ 90) →
      column_letter_to_index l1 = column_letter_to_index l2 → l1 = l2) ∧
    (∀ n : Nat, ∃ l : Str, l ≠ [] ∧ (∀ c ∈ l, 65 ≤ c.toNat ∧ c.toNat ≤ 90) ∧
      column_letter_to_index l = some n) := by
  refine ⟨⟨by decide, by decide, by decide, by decide, by decide, by decide⟩,
    column_letter_to_index_norm, ?_, ?_⟩
  · intro l1 l2 h1ne h1b h2ne h2b heq
    rw [column_letter_to_index_norm l1 h1ne h1b, column_letter_to_index_norm l2 h2ne h2b] at heq
    have hv1 := lettersVal_pos l1 h1ne h1b
    have hv2 := lettersVal_pos l2 h2ne h2b
    have heq' : lettersVal l1 = lettersVal l2 := by
      have := Option.some.inj heq
      omega
    have hd : digitsVal (l1.map charValue) = digitsVal (l2.map charValue) := by
      rw [← lettersVal_eq, ← lettersVal_eq, heq']
    apply map_charValue_inj l1 l2 h1b h2b
    rw [← toDigits_digitsVal (l1.map charValue) (charValue_map_bounds h1b),
      ← toDigits_digitsVal (l2.map charValue) (charValue_map_bounds h2b), hd]
  · intro n
    have hvalid : ∀ c ∈ (toDigits (n + 1)).map (fun d => Char.ofNat (64 + d)),
        65 ≤ c.toNat ∧ c.toNat ≤ 90 := by
      intro c hc
      rcases List.mem_map.mp hc with ⟨d, hd, rfl⟩
      have hdb := toDigits_mem (n + 1) d hd
      have hto : (Char.ofNat (64 + d)).toNat = 64 + d := toNat_ofNat_valid (by omega)
      rw [hto]
      omega
    have hmapne : (toDigits (n + 1)).map (fun d => Char.ofNat (64 + d)) ≠ [] := by
      have := toDigits_ne_nil (n + 1) (by omega)
      simp [this]
    refine ⟨(toDigits (n + 1)).map (fun d => Char.ofNat (64 + d)), hmapne, hvalid, ?_⟩
    rw [column_letter_to_index_norm _ hmapne hvalid]
    have hval : lettersVal ((toDigits (n + 1)).map (fun d => Char.ofNat (64 + d))) = n + 1 := by
      rw [lettersVal_eq, List.map_map]
      have hcomp : List.map (charValue ∘ fun d => Char.ofNat (64 + d)) (toDigits (n + 1)) =
          List.map (fun d => d) (toDigits (n + 1)) := by
        apply List.map_congr_left
        intro d hd
        have hdb := toDigits_mem (n + 1) d hd
        show charValue (Char.ofNat (64 + d)) = d
        unfold charValue
        rw [toNat_ofNat_valid (by omega)]
        have hA : 'A'.toNat = 65 := rfl
        rw [hA]
        omega
      rw [hcomp, List.map_id', digitsVal_toDigits]
    rw [hval]
    simp

theorem c2_column_locator_bijection_witness :
    column_letter_to_index ['A', 'B'] = some (lettersVal ['A', 'B'] - 1) :=
  c2_column_locator_bijection.2.1 ['A', 'B'] (by decide) (by decide)
